import Mathlib

/-!
Shallow embedding of the SurgeDB repository: the domain error type
(crates/surgedb-core/src/error.rs), the HTTP layer of the full server
(crates/surgedb-server/src/main.rs) and of the reduced server
(crates/zapybase-server/src/main.rs).  The core crate's `Collection`
operations are not part of the reviewed sources; where a claim needs them
they are modelled from the spec and marked as such.
-/

namespace SurgeDB

/-- JSON-like metadata value, mirroring `serde_json::Value` as used for the
optional `metadata` field of vectors. -/
inductive Json where
  | null
  | bool (b : Bool)
  | num (q : ℚ)
  | str (s : String)
  | arr (xs : List Json)
  | obj (fields : List (String × Json))

/-- Mirrors `Error` of crates/surgedb-core/src/error.rs: the nine domain
error kinds with their payloads (`Io` wraps `std::io::Error`, modelled as
its message string). -/
inductive Error where
  | DimensionMismatch (expected got : Nat)
  | VectorNotFound (id : String)
  | DuplicateId (id : String)
  | EmptyIndex
  | InvalidConfig (msg : String)
  | Storage (msg : String)
  | CollectionNotFound (name : String)
  | DuplicateCollection (name : String)
  | Io (msg : String)
deriving DecidableEq

/-- The variant name of a domain error, for stating facts about the shape of
the error enum. -/
def Error.kindName : Error → String
  | .DimensionMismatch _ _ => "DimensionMismatch"
  | .VectorNotFound _ => "VectorNotFound"
  | .DuplicateId _ => "DuplicateId"
  | .EmptyIndex => "EmptyIndex"
  | .InvalidConfig _ => "InvalidConfig"
  | .Storage _ => "Storage"
  | .CollectionNotFound _ => "CollectionNotFound"
  | .DuplicateCollection _ => "DuplicateCollection"
  | .Io _ => "IO"

/-- The nine error kind names of crates/surgedb-core/src/error.rs, in
declaration order. -/
def errorKindNames : List String :=
  ["DimensionMismatch", "VectorNotFound", "DuplicateId", "EmptyIndex",
   "InvalidConfig", "Storage", "CollectionNotFound", "DuplicateCollection", "IO"]

/-- The vector id carried by an error, when its payload is a vector id
(`VectorNotFound` and `DuplicateId` per error.rs); `DimensionMismatch`
carries only the two dimensions, the remaining kinds carry a message or a
collection name. -/
def Error.carriedVectorId : Error → Option String
  | .VectorNotFound id => some id
  | .DuplicateId id => some id
  | _ => none

/-- Body of an `InsertRequest` as deserialized by both servers
(surgedb-server main.rs lines 88-95, zapybase-server main.rs lines 30-35). -/
structure InsertRequest where
  id : String
  vector : List ℚ
  metadata : Option Json

/-- Modelled from the spec: the per-collection state visible to the HTTP
layer — the configured dimension count and the id→record map (the HNSW
graph is irrelevant to the claims settled here).  The core crate holding
`Collection` is not among the reviewed sources. -/
structure Collection where
  dims : Nat
  entries : List (String × (List ℚ × Option Json))

/-- Replace the record of `id` if present, else append it (spec §4.5:
"Upsert(id, vec, meta): if id exists, delete old then insert new;
otherwise insert"). -/
def upsertEntry (id : String) (v : List ℚ) (m : Option Json) :
    List (String × (List ℚ × Option Json)) → List (String × (List ℚ × Option Json))
  | [] => [(id, (v, m))]
  | (k, r) :: rest =>
      if k = id then (id, (v, m)) :: rest else (k, r) :: upsertEntry id v m rest

/-- Modelled from the spec: `Collection.upsert` — the dimension guard
(§4.5 failure semantics, §8 property 7: wrong dimension returns
`DimensionMismatch`, state unchanged; error.rs gives the payload as
expected/got dimensions), else full replacement or insertion. -/
def Collection.upsert (c : Collection) (id : String) (v : List ℚ) (m : Option Json) :
    Except Error Collection :=
  if v.length ≠ c.dims then
    .error (.DimensionMismatch c.dims v.length)
  else
    .ok { c with entries := upsertEntry id v m c.entries }

/-- The batch loop of zapybase-server's `batch_insert_vector`
(main.rs lines 226-231): upsert each item in input order, stop at the
first error; earlier upserts are not rolled back (the collection is
mutated in place), so the result pairs the state reached with the error,
if any. -/
def zapyBatchLoop (c : Collection) : List InsertRequest → Collection × Option Error
  | [] => (c, none)
  | item :: rest =>
      match c.upsert item.id item.vector item.metadata with
      | .ok c2 => zapyBatchLoop c2 rest
      | .error e => (c, some e)

/-- Modelled from the spec: `Collection.upsert_batch` (§4.6: "atomic
per-item (an error on item k does not roll back items 0..k−1)", §5:
"each element linearizes independently in input order").  The core crate
defining it is not among the reviewed sources. -/
def Collection.upsert_batch (c : Collection) : List InsertRequest → Collection × Option Error
  | [] => (c, none)
  | item :: rest =>
      match c.upsert item.id item.vector item.metadata with
      | .ok c2 => c2.upsert_batch rest
      | .error e => (c, some e)

/-! ## HTTP layer of surgedb-server: status codes per handler

Each handler is embedded as a function from the outcomes of the calls it
makes (`get_collection`, the `spawn_blocking` join, the core operation) to
the HTTP status it responds with.  The outcomes are parameters because the
core crate computing them is not among the reviewed sources; the mapping
from outcome to status is taken verbatim from the handler bodies. -/

/-- Outcome of `tokio::task::spawn_blocking(...).await`: a join error or
the blocking closure's result. -/
abbrev Joined (α : Type) := Except String α

/-- Status of `insert_vector` (surgedb-server main.rs lines 455-491):
`get_collection` failure → 404; join failure → 500; core `insert` error →
400; otherwise 200 ("Inserted"). -/
def insert_vector_status (getColl : Except Error Unit)
    (joined : Joined (Except Error Unit)) : Nat :=
  match getColl with
  | .error _ => 404
  | .ok _ =>
    match joined with
    | .error _ => 500
    | .ok (.error _) => 400
    | .ok (.ok _) => 200

/-- Status of `upsert_vector` (surgedb-server main.rs lines 506-542): the
same shape as `insert_vector`. -/
def upsert_vector_status (getColl : Except Error Unit)
    (joined : Joined (Except Error Unit)) : Nat :=
  match getColl with
  | .error _ => 404
  | .ok _ =>
    match joined with
    | .error _ => 500
    | .ok (.error _) => 400
    | .ok (.ok _) => 200

/-- Status of `search_vector` (surgedb-server main.rs lines 773-819):
`get_collection` failure → 404; join failure → 500; core `search` error →
400 (whatever the error kind, `EmptyIndex` included); otherwise 200. -/
def search_vector_status (getColl : Except Error Unit)
    (joined : Joined (Except Error Unit)) : Nat :=
  match getColl with
  | .error _ => 404
  | .ok _ =>
    match joined with
    | .error _ => 500
    | .ok (.error _) => 400
    | .ok (.ok _) => 200

/-- Status of `delete_vector` (surgedb-server main.rs lines 675-715):
`get_collection` failure → 404; join failure → 500; `Ok(true)` → 200;
`Ok(false)` → 404 ("Vector not found"); core error → 500. -/
def delete_vector_status (getColl : Except Error Unit)
    (joined : Joined (Except Error Bool)) : Nat :=
  match getColl with
  | .error _ => 404
  | .ok _ =>
    match joined with
    | .error _ => 500
    | .ok (.ok true) => 200
    | .ok (.ok false) => 404
    | .ok (.error _) => 500

/-- Status of `get_vector` (surgedb-server main.rs lines 616-660):
`get_collection` failure → 404; join failure → 500; `Ok(Some _)` → 200;
`Ok(None)` → 404; core error → 500. -/
def get_vector_status (getColl : Except Error Unit)
    (joined : Joined (Except Error (Option Unit))) : Nat :=
  match getColl with
  | .error _ => 404
  | .ok _ =>
    match joined with
    | .error _ => 500
    | .ok (.ok (some _)) => 200
    | .ok (.ok none) => 404
    | .ok (.error _) => 500

/-- Status of `create_collection` (surgedb-server main.rs lines 371-397):
any `create_collection` error → 400; otherwise 200 ("Created"). -/
def create_collection_status (res : Except Error Unit) : Nat :=
  match res with
  | .ok _ => 200
  | .error _ => 400

/-- Status of `delete_collection` (surgedb-server main.rs lines 423-439):
any `delete_collection` error → 404; otherwise 200 ("Deleted"). -/
def delete_collection_status (res : Except Error Unit) : Nat :=
  match res with
  | .ok _ => 200
  | .error _ => 404

/-- Response of surgedb-server's `batch_insert_vector` (main.rs lines
557-601): 404 when `get_collection` fails, else `count` is taken as the
payload length before the batch runs; a single `upsert_batch` call; 500 on
join failure, 400 on a core error, and 200 with body `count` on success. -/
def batch_insert_vector_response (getColl : Except Error Collection)
    (joinFails : Bool) (vectors : List InsertRequest) : Nat × Option Nat :=
  match getColl with
  | .error _ => (404, none)
  | .ok c =>
    let count := vectors.length
    if joinFails then (500, none)
    else
      match (c.upsert_batch vectors).2 with
      | some _ => (400, none)
      | none => (200, some count)

/-- Response of zapybase-server's `batch_insert_vector` (main.rs lines
213-244): same shape, but the batch is a loop of individual `upsert`
calls. -/
def zapy_batch_insert_vector_response (getColl : Except Error Collection)
    (joinFails : Bool) (vectors : List InsertRequest) : Nat × Option Nat :=
  match getColl with
  | .error _ => (404, none)
  | .ok c =>
    let count := vectors.length
    if joinFails then (500, none)
    else
      match (zapyBatchLoop c vectors).2 with
      | some _ => (400, none)
      | none => (200, some count)

/-! ## Auth middleware and the surgedb-server router -/

/-- Outcome of `auth_middleware` for one request. -/
inductive AuthOutcome where
  | proceed
  | reject401
deriving DecidableEq

/-- `auth_middleware` (surgedb-server main.rs lines 189-207): when an API
key is configured, reject with 401 unless the request's `x-api-key` header
equals it; when none is configured, every request proceeds. -/
def auth_middleware (apiKey : Option String) (header : Option String) : AuthOutcome :=
  match apiKey with
  | none => .proceed
  | some expected => if header = some expected then .proceed else .reject401

/-- HTTP methods used by the routers. -/
inductive Method where
  | get
  | post
  | del
deriving DecidableEq

/-- A registered route of surgedb-server: path, method, handler name, and
whether the route sits inside the nested router that carries
`auth_middleware`. -/
structure SurgeRoute where
  path : String
  method : Method
  handler : String
  requiresAuth : Bool
deriving DecidableEq

/-- The surgedb-server route table (main.rs lines 239-269): `/health` and
the Swagger UI routes are registered outside the nested router, every
other route inside it, behind `auth_middleware`. -/
def surgeRoutes : List SurgeRoute :=
  [⟨"/health", .get, "health_check", false⟩,
   ⟨"/swagger-ui", .get, "swagger_ui", false⟩,
   ⟨"/api-docs/openapi.json", .get, "openapi_json", false⟩,
   ⟨"/stats", .get, "get_stats", true⟩,
   ⟨"/collections", .post, "create_collection", true⟩,
   ⟨"/collections", .get, "list_collections", true⟩,
   ⟨"/collections/:name", .del, "delete_collection", true⟩,
   ⟨"/collections/:name/vectors", .post, "insert_vector", true⟩,
   ⟨"/collections/:name/vectors", .get, "list_vectors", true⟩,
   ⟨"/collections/:name/vectors/batch", .post, "batch_insert_vector", true⟩,
   ⟨"/collections/:name/upsert", .post, "upsert_vector", true⟩,
   ⟨"/collections/:name/vectors/:id", .get, "get_vector", true⟩,
   ⟨"/collections/:name/vectors/:id", .del, "delete_vector", true⟩,
   ⟨"/collections/:name/search", .post, "search_vector", true⟩]

/-- What the server does with a request to a given route before its
handler runs: routes inside the nested router pass through
`auth_middleware`, the rest run their handler directly. -/
def serveRoute (apiKey : Option String) (r : SurgeRoute) (header : Option String) :
    AuthOutcome :=
  if r.requiresAuth then auth_middleware apiKey header else .proceed

/-! ## Pagination, health, configuration -/

/-- Struct `PaginationParams` as deserialized from the query string
(surgedb-server main.rs lines 137-143, zapybase-server main.rs lines
66-70). -/
structure PaginationParams where
  offset : Option Nat
  limit : Option Nat

/-- The `(offset, limit)` pair both servers pass to `collection.list`
(surgedb-server main.rs lines 743-744, zapybase-server main.rs lines
294-295): `offset.unwrap_or(0)` and `limit.unwrap_or(10).min(100)`. -/
def list_vectors_args (params : PaginationParams) : Nat × Nat :=
  (params.offset.getD 0, min (params.limit.getD 10) 100)

/-- Struct `HealthResponse` (surgedb-server main.rs lines 123-129). -/
structure HealthResponse where
  status : String
  version : String
  uptime_seconds : Nat
  memory_usage_mb : Nat
deriving DecidableEq

/-- A response body: either plain text or one of the JSON bodies the
servers produce. -/
inductive Body where
  | text (s : String)
  | health (h : HealthResponse)
deriving DecidableEq

/-- surgedb-server's `health_check` (main.rs lines 325-342), as a function
of the quantities it reads: the package version, the elapsed uptime in
whole seconds, and the current process memory in bytes (0 when the process
cannot be found). The body is the JSON `HealthResponse` with status "OK"
and memory converted to megabytes by `/ 1024 / 1024`. -/
def health_check (version : String) (uptimeSecs : Nat) (processMemBytes : Nat) : Body :=
  .health
    { status := "OK"
      version := version
      uptime_seconds := uptimeSecs
      memory_usage_mb := processMemBytes / 1024 / 1024 }

/-- zapybase-server's `health_check` (main.rs lines 107-109): the plain
static body "OK". -/
def zapy_health_check : Body := .text "OK"

/-- Struct `AppConfig` (surgedb-server main.rs lines 30-38). -/
structure AppConfig where
  port : Nat
  api_key : Option String
  log_level : String
  cors_allow_origin : String
  request_timeout_secs : Nat
  max_request_size_bytes : Nat
deriving DecidableEq

/-- Rust's `str::parse` for an unsigned integer type of `bits` bits: an
optional leading `+`, then one or more ASCII digits, and the value must
fit; anything else is a parse error. -/
def parseUInt (bits : Nat) (s : String) : Option Nat :=
  let cs := match s.data with
    | '+' :: rest => rest
    | cs => cs
  if cs ≠ [] ∧ cs.all Char.isDigit then
    let n := cs.foldl (fun acc c => acc * 10 + (c.toNat - 48)) 0
    if n < 2 ^ bits then some n else none
  else none

/-- An environment: the value of each variable, if set. -/
abbrev Env := String → Option String

/-- Function `AppConfig::from_env` (surgedb-server main.rs lines 40-62): each
numeric variable defaults when unset, and `unwrap_or` restores the default
when the set string fails to parse (`PORT` as `u16`, the other two as 64-bit);
`API_KEY` is kept only if set; `LOG_LEVEL` defaults to "info" and
`CORS_ALLOW_ORIGIN` to "*". -/
def AppConfig.from_env (env : Env) : AppConfig :=
  { port := (parseUInt 16 ((env "PORT").getD "3000")).getD 3000
    api_key := env "API_KEY"
    log_level := (env "LOG_LEVEL").getD "info"
    cors_allow_origin := (env "CORS_ALLOW_ORIGIN").getD "*"
    request_timeout_secs :=
      (parseUInt 64 ((env "REQUEST_TIMEOUT_SECS").getD "30")).getD 30
    max_request_size_bytes :=
      (parseUInt 64 ((env "MAX_REQUEST_SIZE_BYTES").getD "10485760")).getD (10 * 1024 * 1024) }

/-! ## The zapybase-server router and the two search request types -/

/-- A registered route of zapybase-server: path, method, handler name.
There is no middleware layer in this server at all. -/
structure ZapyRoute where
  path : String
  method : Method
  handler : String
deriving DecidableEq

/-- The zapybase-server route table (main.rs lines 89-99).  Note the
vector item route carries only `get(get_vector)` and the router installs
no `.layer(...)` of any kind. -/
def zapyRoutes : List ZapyRoute :=
  [⟨"/health", .get, "health_check"⟩,
   ⟨"/stats", .get, "get_stats"⟩,
   ⟨"/collections", .post, "create_collection"⟩,
   ⟨"/collections", .get, "list_collections"⟩,
   ⟨"/collections/:name", .del, "delete_collection"⟩,
   ⟨"/collections/:name/vectors", .post, "insert_vector"⟩,
   ⟨"/collections/:name/vectors", .get, "list_vectors"⟩,
   ⟨"/collections/:name/vectors/batch", .post, "batch_insert_vector"⟩,
   ⟨"/collections/:name/upsert", .post, "upsert_vector"⟩,
   ⟨"/collections/:name/vectors/:id", .get, "get_vector"⟩,
   ⟨"/collections/:name/search", .post, "search_vector"⟩]

/-- The middleware layers installed by zapybase-server's `main` (main.rs
lines 89-104): none — no auth, timeout, body-size or CORS layer appears. -/
def zapyMiddleware : List String := []

/-- Axum-style dispatch over a route table: the handler registered for a
method and path, if any. -/
def dispatch (routes : List ZapyRoute) (m : Method) (p : String) : Option String :=
  (routes.find? fun r => r.method = m ∧ r.path = p).map ZapyRoute.handler

/-- Modelled from the spec: the metadata filter tree of §4.4 (leaf
predicates Eq/In/Range/Exists over a path, compounds And/Or/Not); the core
crate defining `Filter` is not among the reviewed sources.  Only its
presence in the request type matters to the claims settled here. -/
inductive Filter where
  | eqPred (path : String) (value : Json)
  | inPred (path : String) (values : List Json)
  | rangePred (path : String) (gt ge lt le : Option ℚ)
  | existsPred (path : String)
  | andPred (fs : List Filter)
  | orPred (fs : List Filter)
  | notPred (f : Filter)

/-- Struct `SearchRequest` of surgedb-server (main.rs lines 102-109): vector, k,
and an optional metadata filter. -/
structure SearchRequest where
  vector : List ℚ
  k : Nat
  filter : Option Filter

/-- Struct `SearchRequest` of zapybase-server (main.rs lines 42-46): vector and k
only — no filter field. -/
structure ZapySearchRequest where
  vector : List ℚ
  k : Nat

/-- The arguments surgedb-server's `search_vector` passes to
`collection.search` (main.rs line 788): the request's vector, k and
filter. -/
def search_vector_args (r : SearchRequest) : List ℚ × Nat × Option Filter :=
  (r.vector, r.k, r.filter)

/-- The arguments zapybase-server's `search_vector` passes to
`collection.search` (main.rs line 320): vector and k — there is no filter
argument. -/
def zapy_search_vector_args (r : ZapySearchRequest) : List ℚ × Nat :=
  (r.vector, r.k)

/-- The embedding of a reduced search request into the richer request
type: same vector and k, no filter. -/
def ZapySearchRequest.toSurge (r : ZapySearchRequest) : SearchRequest :=
  ⟨r.vector, r.k, none⟩

/-! ## Specification helpers for the theorems -/

/-- Apply a list of upserts in order, yielding the final state exactly when
every item succeeds; used to state which prefix of a batch was applied. -/
def applyAll (c : Collection) : List InsertRequest → Option Collection
  | [] => some c
  | item :: rest =>
      match c.upsert item.id item.vector item.metadata with
      | .ok c2 => applyAll c2 rest
      | .error _ => none

/-! ## Theorems -/

/-- C1, counterexample.  The claim says Storage and IO errors map to 500
and VectorNotFound to 404; but `search_vector` maps every core-operation
error to 400 (main.rs lines 812-818) and `delete_vector` maps every
core-operation error to 500 (lines 708-714), so a `Storage` error
surfacing from search gets 400, not 500, and a `VectorNotFound` error
surfacing from delete gets 500, not 404. -/
theorem C1_status_map_cex :
    search_vector_status (.ok ()) (.ok (.error (.Storage "disk full"))) = 400 ∧
    search_vector_status (.ok ()) (.ok (.error (.Storage "disk full"))) ≠ 500 ∧
    delete_vector_status (.ok ()) (.ok (.error (.VectorNotFound "v1"))) = 500 ∧
    delete_vector_status (.ok ()) (.ok (.error (.VectorNotFound "v1"))) ≠ 404 := by
  refine ⟨rfl, ?_, rfl, ?_⟩ <;> decide

/-- C1, amended: the status depends on the call site, not on the error
kind.  `get_collection` failures map to 404; core-operation errors inside
`insert_vector`, `upsert_vector` and `search_vector` map to 400 whatever
the kind (in particular `EmptyIndex` on search is 400);
`create_collection` errors map to 400 and `delete_collection` errors to
404; core-operation errors inside `delete_vector` and `get_vector` map to
500, while a missing vector reported as `Ok(false)`/`Ok(None)` maps to
404; join (unexpected) failures map to 500. -/
theorem C1_status_by_call_site :
    (∀ (e : Error) (j : Joined (Except Error Unit)),
        insert_vector_status (.error e) j = 404 ∧
        upsert_vector_status (.error e) j = 404 ∧
        search_vector_status (.error e) j = 404) ∧
    (∀ e : Error,
        insert_vector_status (.ok ()) (.ok (.error e)) = 400 ∧
        upsert_vector_status (.ok ()) (.ok (.error e)) = 400 ∧
        search_vector_status (.ok ()) (.ok (.error e)) = 400 ∧
        create_collection_status (.error e) = 400 ∧
        delete_collection_status (.error e) = 404 ∧
        delete_vector_status (.ok ()) (.ok (.error e)) = 500 ∧
        get_vector_status (.ok ()) (.ok (.error e)) = 500) ∧
    search_vector_status (.ok ()) (.ok (.error .EmptyIndex)) = 400 ∧
    (∀ msg : String,
        insert_vector_status (.ok ()) (.error msg) = 500 ∧
        search_vector_status (.ok ()) (.error msg) = 500 ∧
        delete_vector_status (.ok ()) (.error msg) = 500 ∧
        get_vector_status (.ok ()) (.error msg) = 500) ∧
    delete_vector_status (.ok ()) (.ok (.ok false)) = 404 ∧
    get_vector_status (.ok ()) (.ok (.ok none)) = 404 := by
  exact ⟨fun e j => ⟨rfl, rfl, rfl⟩,
    fun e => ⟨rfl, rfl, rfl, rfl, rfl, rfl, rfl⟩,
    rfl,
    fun msg => ⟨rfl, rfl, rfl, rfl⟩,
    rfl, rfl⟩

/-- C2, amended: both batch implementations are atomic per item, in input
order — when every item of the prefix succeeds (reaching state c') and the
next item fails with error e, the batch stops there: the prefix stays
applied (no rollback), the suffix is untouched, and the returned error is
exactly the failing item's error (which carries the offending id only for
the id-bearing kinds; a `DimensionMismatch` carries no id). -/
theorem C2_upsert_batch_per_item (c c' : Collection) (pre : List InsertRequest)
    (bad : InsertRequest) (post : List InsertRequest) (e : Error)
    (hpre : applyAll c pre = some c')
    (hbad : c'.upsert bad.id bad.vector bad.metadata = .error e) :
    c.upsert_batch (pre ++ bad :: post) = (c', some e) ∧
    zapyBatchLoop c (pre ++ bad :: post) = (c', some e) := by
  induction pre generalizing c with
  | nil =>
    simp only [applyAll, Option.some.injEq] at hpre
    subst hpre
    constructor <;> simp [Collection.upsert_batch, zapyBatchLoop, hbad]
  | cons item rest ih =>
    simp only [applyAll] at hpre
    rcases h : c.upsert item.id item.vector item.metadata with e2 | c2
    · rw [h] at hpre; cases hpre
    · rw [h] at hpre
      have := ih c2 hpre
      simpa only [List.cons_append, Collection.upsert_batch, zapyBatchLoop, h] using this

/-- C2, witness for the amended theorem: a three-item batch on a
2-dimension collection where the second item has three components. -/
theorem C2_upsert_batch_per_item_witness :
    Collection.upsert_batch ⟨2, []⟩
        [⟨"a", [1, 2], none⟩, ⟨"b", [1, 2, 3], none⟩, ⟨"c", [3, 4], none⟩] =
      (⟨2, [("a", ([1, 2], none))]⟩, some (.DimensionMismatch 2 3)) ∧
    zapyBatchLoop ⟨2, []⟩
        [⟨"a", [1, 2], none⟩, ⟨"b", [1, 2, 3], none⟩, ⟨"c", [3, 4], none⟩] =
      (⟨2, [("a", ([1, 2], none))]⟩, some (.DimensionMismatch 2 3)) :=
  C2_upsert_batch_per_item ⟨2, []⟩ ⟨2, [("a", ([1, 2], none))]⟩
    [⟨"a", [1, 2], none⟩] ⟨"b", [1, 2, 3], none⟩ [⟨"c", [3, 4], none⟩]
    (.DimensionMismatch 2 3) rfl rfl

/-- C2, counterexample.  The claim says the returned error carries the
offending item's id; but when item "b" fails the dimension guard, the
error is `DimensionMismatch {expected: 2, got: 3}` — per error.rs it
carries only the two dimensions and no id at all (while the applied prefix
["a"] and the skipped suffix confirm the per-item part). -/
theorem C2_error_id_cex :
    (zapyBatchLoop ⟨2, []⟩
        [⟨"a", [1, 2], none⟩, ⟨"b", [1, 2, 3], none⟩, ⟨"c", [3, 4], none⟩]).2 =
      some (.DimensionMismatch 2 3) ∧
    (Error.DimensionMismatch 2 3).carriedVectorId = none ∧
    (Error.DimensionMismatch 2 3).carriedVectorId ≠ some "b" ∧
    ((zapyBatchLoop ⟨2, []⟩
        [⟨"a", [1, 2], none⟩, ⟨"b", [1, 2, 3], none⟩, ⟨"c", [3, 4], none⟩]).1.entries.map
      Prod.fst) = ["a"] := by
  refine ⟨rfl, rfl, ?_, rfl⟩
  decide

/-- C3: with an API key configured, every route behind the nested router's
`auth_middleware` is rejected with 401 unless the `x-api-key` header
equals the key, and served when it does; `/health` and the Swagger
documentation routes are registered outside that router and always
proceed without a key; with no key configured every request proceeds. -/
theorem C3_auth_middleware (cfg header : Option String) (r : SurgeRoute)
    (hr : r ∈ surgeRoutes) :
    (∀ k, cfg = some k → r.requiresAuth = true → header ≠ some k →
        serveRoute cfg r header = .reject401) ∧
    (∀ k, cfg = some k → header = some k → serveRoute cfg r header = .proceed) ∧
    (r.path = "/health" ∨ r.path = "/swagger-ui" ∨ r.path = "/api-docs/openapi.json" →
        serveRoute cfg r header = .proceed) ∧
    (cfg = none → serveRoute cfg r header = .proceed) := by
  fin_cases hr <;>
    refine ⟨fun k hk hauth hne => ?_, fun k hk hh => ?_, fun h => ?_, fun h => ?_⟩ <;>
      first
        | exact absurd hauth (by decide)
        | exact absurd h (by decide)
        | (subst hk; subst hh; simp [serveRoute, auth_middleware])
        | (subst hk; simp [serveRoute, auth_middleware, hne])
        | (subst h; rfl)
        | rfl

/-- C3, witness: the protected `/stats` route rejects a missing key and a
wrong key when "secret" is configured, accepts the right key, and the
public `/health` route and a keyless configuration always proceed. -/
theorem C3_auth_middleware_witness :
    serveRoute (some "secret") ⟨"/stats", .get, "get_stats", true⟩ none = .reject401 ∧
    serveRoute (some "secret") ⟨"/stats", .get, "get_stats", true⟩ (some "wrong") = .reject401 ∧
    serveRoute (some "secret") ⟨"/stats", .get, "get_stats", true⟩ (some "secret") = .proceed ∧
    serveRoute (some "secret") ⟨"/health", .get, "health_check", false⟩ none = .proceed ∧
    serveRoute none ⟨"/stats", .get, "get_stats", true⟩ none = .proceed :=
  ⟨(C3_auth_middleware (some "secret") none ⟨"/stats", .get, "get_stats", true⟩
      (by decide)).1 "secret" rfl rfl (by simp),
   (C3_auth_middleware (some "secret") (some "wrong") ⟨"/stats", .get, "get_stats", true⟩
      (by decide)).1 "secret" rfl rfl (by simp),
   (C3_auth_middleware (some "secret") (some "secret") ⟨"/stats", .get, "get_stats", true⟩
      (by decide)).2.1 "secret" rfl rfl,
   (C3_auth_middleware (some "secret") none ⟨"/health", .get, "health_check", false⟩
      (by decide)).2.2.1 (Or.inl rfl),
   (C3_auth_middleware none none ⟨"/stats", .get, "get_stats", true⟩
      (by decide)).2.2.2 rfl⟩

/-- C4: the pair passed to `collection.list` uses offset defaulting to 0
and limit defaulting to 10, a requested limit above 100 is capped at 100,
and a requested limit of at most 100 (and any requested offset) is passed
through unchanged. -/
theorem C4_list_vectors_defaults (params : PaginationParams) :
    (params.offset = none → (list_vectors_args params).1 = 0) ∧
    (params.limit = none → (list_vectors_args params).2 = 10) ∧
    (∀ n, params.offset = some n → (list_vectors_args params).1 = n) ∧
    (∀ n, params.limit = some n → 100 < n → (list_vectors_args params).2 = 100) ∧
    (∀ n, params.limit = some n → n ≤ 100 → (list_vectors_args params).2 = n) := by
  refine ⟨fun h => ?_, fun h => ?_, fun n h => ?_, fun n h hn => ?_, fun n h hn => ?_⟩ <;>
    simp [list_vectors_args, h] <;> omega

/-- C4, witness: no offset and limit 250 yields (0, 100); offset 7 with no
limit yields (7, 10); limit 42 passes through. -/
theorem C4_list_vectors_defaults_witness :
    (list_vectors_args ⟨none, some 250⟩).1 = 0 ∧
    (list_vectors_args ⟨none, some 250⟩).2 = 100 ∧
    (list_vectors_args ⟨some 7, none⟩).1 = 7 ∧
    (list_vectors_args ⟨some 7, none⟩).2 = 10 ∧
    (list_vectors_args ⟨none, some 42⟩).2 = 42 :=
  ⟨(C4_list_vectors_defaults ⟨none, some 250⟩).1 rfl,
   (C4_list_vectors_defaults ⟨none, some 250⟩).2.2.2.1 250 rfl (by decide),
   (C4_list_vectors_defaults ⟨some 7, none⟩).2.2.1 7 rfl,
   (C4_list_vectors_defaults ⟨some 7, none⟩).2.1 rfl,
   (C4_list_vectors_defaults ⟨none, some 42⟩).2.2.2.2 42 rfl (by decide)⟩

/-- C5: when the collection exists, the join succeeds and the batch
operation succeeds, surgedb-server's `batch_insert_vector` responds 200
with body `count`, where `count` is the length of the request's `vectors`
array taken before the batch is applied. -/
theorem C5_batch_count_response (c : Collection) (vectors : List InsertRequest)
    (hok : (c.upsert_batch vectors).2 = none) :
    batch_insert_vector_response (.ok c) false vectors = (200, some vectors.length) := by
  simp [batch_insert_vector_response, hok]

/-- C5, witness: a successful two-item batch on a 1-dimension collection
responds (200, some 2). -/
theorem C5_batch_count_response_witness :
    batch_insert_vector_response (.ok ⟨1, []⟩) false
      [⟨"a", [1], none⟩, ⟨"b", [2], none⟩] = (200, some 2) :=
  C5_batch_count_response ⟨1, []⟩ [⟨"a", [1], none⟩, ⟨"b", [2], none⟩] rfl

/-- C6, counterexample.  The claim covers `GET /health`, but
zapybase-server's `health_check` (main.rs lines 107-109) returns the plain
text body "OK": it is no JSON object and carries no version, uptime or
memory field. -/
theorem C6_health_cex :
    zapy_health_check = Body.text "OK" ∧
    ¬ ∃ h : HealthResponse, zapy_health_check = Body.health h := by
  refine ⟨rfl, ?_⟩
  rintro ⟨h, hh⟩
  simp [zapy_health_check] at hh

/-- C6, amended: surgedb-server's `GET /health` responds with the JSON
body holding status "OK", the package version, the elapsed uptime in
seconds and the process memory in megabytes (bytes divided by 1024
twice); zapybase-server's `GET /health` responds with the plain text
"OK" instead. -/
theorem C6_health_response (version : String) (uptimeSecs processMemBytes : Nat) :
    health_check version uptimeSecs processMemBytes =
      Body.health ⟨"OK", version, uptimeSecs, processMemBytes / 1024 / 1024⟩ ∧
    health_check version uptimeSecs processMemBytes ≠ Body.text "OK" ∧
    zapy_health_check = Body.text "OK" := by
  refine ⟨rfl, ?_, rfl⟩
  simp [health_check]

/-- C7: the domain error type has exactly the nine kinds of error.rs —
every error value falls under one of the nine distinct kind names, each
kind name is realized by an error value — and the (spec-modelled) core
operations return errors as values: any error surfacing from `upsert` or
`upsert_batch` is again one of the nine kinds. -/
theorem C7_nine_error_kinds :
    (∀ e : Error, e.kindName ∈ errorKindNames) ∧
    errorKindNames.length = 9 ∧
    errorKindNames.Nodup ∧
    (∀ n ∈ errorKindNames, ∃ e : Error, e.kindName = n) ∧
    (∀ (c : Collection) (id : String) (v : List ℚ) (m : Option Json) (e : Error),
        c.upsert id v m = .error e → e.kindName ∈ errorKindNames) ∧
    (∀ (c : Collection) (items : List InsertRequest) (e : Error),
        (c.upsert_batch items).2 = some e → e.kindName ∈ errorKindNames) := by
  have hall : ∀ e : Error, e.kindName ∈ errorKindNames := by
    intro e; cases e <;> simp [Error.kindName, errorKindNames]
  refine ⟨hall, rfl, by decide, ?_, fun c id v m e _ => hall e, fun c items e _ => hall e⟩
  intro n hn
  fin_cases hn
  · exact ⟨.DimensionMismatch 0 0, rfl⟩
  · exact ⟨.VectorNotFound "", rfl⟩
  · exact ⟨.DuplicateId "", rfl⟩
  · exact ⟨.EmptyIndex, rfl⟩
  · exact ⟨.InvalidConfig "", rfl⟩
  · exact ⟨.Storage "", rfl⟩
  · exact ⟨.CollectionNotFound "", rfl⟩
  · exact ⟨.DuplicateCollection "", rfl⟩
  · exact ⟨.Io "", rfl⟩

/-- C7, witness: the kind name "EmptyIndex" is realized, a concrete error
value falls under the nine kinds, and a concrete failing `upsert_batch`
surfaces an error of one of the nine kinds. -/
theorem C7_nine_error_kinds_witness :
    (∃ e : Error, e.kindName = "EmptyIndex") ∧
    (Error.Storage "disk").kindName ∈ errorKindNames ∧
    (Error.DimensionMismatch 1 2).kindName ∈ errorKindNames :=
  ⟨C7_nine_error_kinds.2.2.2.1 "EmptyIndex" (by decide),
   C7_nine_error_kinds.1 (Error.Storage "disk"),
   C7_nine_error_kinds.2.2.2.2.2 ⟨1, []⟩ [⟨"a", [1, 2], none⟩]
     (.DimensionMismatch 1 2) rfl⟩

/-- C8: the two server surfaces differ exactly as stated — the reduced
search request type is the richer one with the optional filter forced
absent (the map into the filterless subtype is a bijection, and the richer
server forwards its request's filter to `collection.search` while the
reduced one has none to forward), and the batch handlers agree
extensionally: the reduced server's loop of individual `upsert` calls
computes the same result as the richer server's single `upsert_batch`
call, so the two batch endpoints produce identical responses. -/
theorem C8_parallel_surfaces :
    (∀ r : ZapySearchRequest, r.toSurge.filter = none ∧
        search_vector_args r.toSurge = (r.vector, r.k, none)) ∧
    (Function.Bijective fun r : ZapySearchRequest =>
        (⟨r.toSurge, rfl⟩ : {s : SearchRequest // s.filter = none})) ∧
    (∀ s : SearchRequest, search_vector_args s = (s.vector, s.k, s.filter)) ∧
    (∀ (c : Collection) (vectors : List InsertRequest),
        zapyBatchLoop c vectors = c.upsert_batch vectors) ∧
    (∀ (getColl : Except Error Collection) (joinFails : Bool)
        (vectors : List InsertRequest),
        zapy_batch_insert_vector_response getColl joinFails vectors =
          batch_insert_vector_response getColl joinFails vectors) := by
  have hloop : ∀ (c : Collection) (vectors : List InsertRequest),
      zapyBatchLoop c vectors = c.upsert_batch vectors := by
    intro c vectors
    induction vectors generalizing c with
    | nil => rfl
    | cons item rest ih =>
      simp only [zapyBatchLoop, Collection.upsert_batch]
      rcases h : c.upsert item.id item.vector item.metadata with e | c2
      · rfl
      · exact ih c2
  refine ⟨fun r => ⟨rfl, rfl⟩, ⟨?_, ?_⟩, fun s => rfl, hloop, ?_⟩
  · intro a b hab
    cases a; cases b
    simpa [ZapySearchRequest.toSurge, SearchRequest.mk.injEq] using hab
  · rintro ⟨⟨v, k, f⟩, hf⟩
    refine ⟨⟨v, k⟩, ?_⟩
    simp only at hf
    subst hf
    rfl
  · intro getColl joinFails vectors
    cases getColl with
    | error e => rfl
    | ok c =>
      simp [zapy_batch_insert_vector_response, batch_insert_vector_response, hloop]

/-- C8, witness: the loop and the batch call agree on a concrete batch,
and a concrete reduced request maps to the richer request with no
filter. -/
theorem C8_parallel_surfaces_witness :
    zapyBatchLoop ⟨1, []⟩ [⟨"a", [5], none⟩, ⟨"b", [6, 7], none⟩] =
      Collection.upsert_batch ⟨1, []⟩ [⟨"a", [5], none⟩, ⟨"b", [6, 7], none⟩] ∧
    search_vector_args (ZapySearchRequest.toSurge ⟨[5], 3⟩) = ([5], 3, none) :=
  ⟨C8_parallel_surfaces.2.2.2.1 ⟨1, []⟩ [⟨"a", [5], none⟩, ⟨"b", [6, 7], none⟩],
   (C8_parallel_surfaces.1 ⟨[5], 3⟩).2⟩

/-- C9: configuration loading never fails — for every environment, when
PORT, REQUEST_TIMEOUT_SECS or MAX_REQUEST_SIZE_BYTES is unset or set to a
string that does not parse, the value is the default 3000, 30 or 10485760
respectively, and an absent API_KEY yields no configured key. -/
theorem C9_from_env_total (env : Env) :
    ((env "PORT" = none ∨ ∃ s, env "PORT" = some s ∧ parseUInt 16 s = none) →
        (AppConfig.from_env env).port = 3000) ∧
    ((env "REQUEST_TIMEOUT_SECS" = none ∨
        ∃ s, env "REQUEST_TIMEOUT_SECS" = some s ∧ parseUInt 64 s = none) →
        (AppConfig.from_env env).request_timeout_secs = 30) ∧
    ((env "MAX_REQUEST_SIZE_BYTES" = none ∨
        ∃ s, env "MAX_REQUEST_SIZE_BYTES" = some s ∧ parseUInt 64 s = none) →
        (AppConfig.from_env env).max_request_size_bytes = 10485760) ∧
    (env "API_KEY" = none → (AppConfig.from_env env).api_key = none) := by
  refine ⟨fun h => ?_, fun h => ?_, fun h => ?_, fun h => ?_⟩
  · rcases h with h | ⟨s, hs, hp⟩
    · simp [AppConfig.from_env, h]
      decide
    · simp [AppConfig.from_env, hs, hp]
  · rcases h with h | ⟨s, hs, hp⟩
    · simp [AppConfig.from_env, h]
      decide
    · simp [AppConfig.from_env, hs, hp]
  · rcases h with h | ⟨s, hs, hp⟩
    · simp [AppConfig.from_env, h]
      decide
    · simp [AppConfig.from_env, hs, hp]
  · simp [AppConfig.from_env, h]

/-- C9, witness: an environment with PORT set to the unparsable "abc" and
everything else unset yields the defaults and no API key. -/
theorem C9_from_env_total_witness :
    (AppConfig.from_env fun v => if v = "PORT" then some "abc" else none).port = 3000 ∧
    (AppConfig.from_env fun _ => none).request_timeout_secs = 30 ∧
    (AppConfig.from_env fun _ => none).max_request_size_bytes = 10485760 ∧
    (AppConfig.from_env fun _ => none).api_key = none :=
  ⟨(C9_from_env_total _).1 (Or.inr ⟨"abc", rfl, by decide⟩),
   (C9_from_env_total _).2.1 (Or.inl rfl),
   (C9_from_env_total _).2.2.1 (Or.inl rfl),
   (C9_from_env_total _).2.2.2 rfl⟩

/-- C10: in the zapybase-server route table, the only registration on
`/collections/:name/vectors/:id` is the GET of `get_vector`; dispatching
DELETE on that path finds no handler; the only DELETE route in the whole
table is collection deletion; no route runs a vector-delete handler; and
the server installs no middleware layer at all. -/
theorem C10_zapy_surface :
    (∀ r ∈ zapyRoutes, r.path = "/collections/:name/vectors/:id" →
        r.method = .get ∧ r.handler = "get_vector") ∧
    dispatch zapyRoutes .del "/collections/:name/vectors/:id" = none ∧
    (∀ r ∈ zapyRoutes, r.method = .del → r.path = "/collections/:name") ∧
    (∀ r ∈ zapyRoutes, r.handler ≠ "delete_vector") ∧
    zapyMiddleware = [] := by
  refine ⟨?_, ?_, ?_, ?_, rfl⟩ <;> decide

/-- C10, witness: the registered vector-item route is the GET of
`get_vector`, and the collection-deletion route is the DELETE route's only
path. -/
theorem C10_zapy_surface_witness :
    ((⟨"/collections/:name/vectors/:id", .get, "get_vector"⟩ : ZapyRoute).method = .get ∧
      (⟨"/collections/:name/vectors/:id", .get, "get_vector"⟩ : ZapyRoute).handler =
        "get_vector") ∧
    (⟨"/collections/:name", .del, "delete_collection"⟩ : ZapyRoute).path =
      "/collections/:name" ∧
    (⟨"/collections/:name", .del, "delete_collection"⟩ : ZapyRoute).handler ≠
      "delete_vector" :=
  ⟨C10_zapy_surface.1 ⟨"/collections/:name/vectors/:id", .get, "get_vector"⟩
      (by decide) rfl,
   C10_zapy_surface.2.2.1 ⟨"/collections/:name", .del, "delete_collection"⟩
      (by decide) rfl,
   C10_zapy_surface.2.2.2.1 ⟨"/collections/:name", .del, "delete_collection"⟩
      (by decide)⟩

end SurgeDB
